import Mathlib

/-!
Shallow embedding of the differential-privacy query servers of this
repository (`src/server.py`, the socket server, and `src/app.py`, the
Flask server) and proofs about the claims of the specification.

Modelling conventions:
* Record values are rationals (`ℚ`) instead of floats; dates keep only the
  fields the code reads (`dt.year`, `dt.month`) plus the day.
* The Laplace sampler is an oracle: a function `ℚ → ℚ` from the scale to
  the drawn value (for grouped queries a family `ℕ → ℚ → ℚ`, one
  independent oracle per group, mirroring one independent draw per group).
* The pydp mechanisms (`BoundedSum`, `Count`) are external library code,
  not part of this repository; they are modelled from the spec (§4.2,
  §4.3) and return `Except MechError` for their documented failure modes.
* Python dicts keyed by group are association lists in the (sorted) key
  order pandas `groupby` produces.
-/

/-- A calendar date; the servers only ever read `.dt.year` and `.dt.month`
of the activation-date column. -/
structure Date where
  year : Int
  month : Int
  day : Int
deriving DecidableEq, Repr

/-- One row of the cleaned dataset, with the six columns the servers use
(`total_rev`, `package_service`, `package_category`, `act_date`,
`los_segment`, `channel_new`). -/
structure Record where
  total_rev : ℚ
  package_service : String
  package_category : String
  act_date : Date
  los_segment : String
  channel_new : String
deriving DecidableEq, Repr

/-- The `params` mapping of a fingerprint query: `params.get("year")`,
`params.get("month")`, `params.get("los")`, `params.get("channel")`,
each `none` when the key is absent. -/
structure Params where
  year : Option Int
  month : Option Int
  los : Option String
  channel : Option String
deriving DecidableEq, Repr

/-- `params` defaults to the empty dict (`query.get("params", {})`), in
which every `.get` returns `None`. -/
def Params.empty : Params := ⟨none, none, none, none⟩

/-- An incoming JSON query. Each field is `none` when the key is absent
from the request body. -/
structure Query where
  type : Option String
  use_dp : Option Bool
  epsilon : Option ℚ
  params : Option Params
deriving DecidableEq, Repr

/-- Server state after `__init__`: `rawData = none` models
`self._raw_data is None` (dataset failed to load); the bounds are the
min/max of the revenue column, fixed at startup. -/
structure ServerState where
  rawData : Option (List Record)
  lowerBound : ℚ
  upperBound : ℚ

/-- Failure modes of the noise mechanisms, from the spec's error
taxonomy. -/
inductive MechError where
  | invalidEpsilon
  | invalidScale
  | invalidBounds
deriving DecidableEq, Repr

/-- A query result: an error message, a dict of per-group revenue sums,
a dict of per-group counts, or a scalar count. -/
inductive QResult where
  | error (msg : String)
  | revDict (m : List (String × ℚ))
  | cntDict (m : List (String × ℤ))
  | cnt (n : ℤ)
deriving DecidableEq, Repr

/-- Clamp a value to `[lo, hi]`. -/
def clampTo (lo hi x : ℚ) : ℚ := max lo (min x hi)

/-- The floor of a rational, written out with `Int.fdiv` so that it
evaluates inside the kernel. -/
def ratFloor (q : ℚ) : ℤ := Int.fdiv q.num q.den

/-- Round half away from zero (`round(2.5) = 3`, `round(-2.5) = -3`),
the rounding the spec prescribes for noised counts. -/
def roundHalfAway (q : ℚ) : ℤ :=
  if 0 ≤ q then ratFloor (q + 1 / 2) else -ratFloor (-q + 1 / 2)

instance {ε α : Type} [DecidableEq ε] [DecidableEq α] :
    DecidableEq (Except ε α) := fun x y =>
  match x, y with
  | .ok a, .ok b =>
    if h : a = b then .isTrue (by rw [h])
    else .isFalse (fun hh => h (Except.ok.inj hh))
  | .ok _, .error _ => .isFalse (fun hh => Except.noConfusion hh)
  | .error _, .ok _ => .isFalse (fun hh => Except.noConfusion hh)
  | .error e, .error f =>
    if h : e = f then .isTrue (by rw [h])
    else .isFalse (fun hh => h (Except.error.inj hh))

/-- Modelled from the spec: `pydp.algorithms.laplacian.BoundedSum(
epsilon, lower_bound, upper_bound, dtype='float').quick_result(data)`.
The library source is not part of this repository; per spec §4.2 it
clamps every value to `[lo, hi]`, sums, and adds one Laplace draw of
scale `(hi - lo) / eps`; it fails with `InvalidEpsilon` when `eps ≤ 0`
and `InvalidBounds` when `lo ≥ hi`. -/
def BoundedSum.quick_result (eps lo hi : ℚ) (lap : ℚ → ℚ) (data : List ℚ) :
    Except MechError ℚ :=
  if eps ≤ 0 then .error .invalidEpsilon
  else if hi ≤ lo then .error .invalidBounds
  else .ok ((data.map (clampTo lo hi)).sum + lap ((hi - lo) / eps))

/-- Modelled from the spec: `pydp.algorithms.laplacian.Count(epsilon,
dtype='int').quick_result(data)`. The library source is not part of this
repository; per spec §4.3 it adds a Laplace draw of scale `1 / eps` to
the exact count and rounds half away from zero (the result may be
negative); it fails with `InvalidEpsilon` when `eps ≤ 0`. -/
def Count.quick_result (eps : ℚ) (lap : ℚ → ℚ) (data : List ℚ) :
    Except MechError ℤ :=
  if eps ≤ 0 then .error .invalidEpsilon
  else .ok (roundHalfAway ((data.length : ℚ) + lap (1 / eps)))

/-- Insert a key into a sorted list of keys (ascending). -/
def insertKey (s : String) : List String → List String
  | [] => [s]
  | t :: ts => if s ≤ t then s :: t :: ts else t :: insertKey s ts

/-- Sort group keys ascending, as pandas `groupby` (sort=True, the
default) does. -/
def sortKeys (l : List String) : List String := l.foldr insertKey []

/-- The distinct values of the `package_service` column in groupby
order: `groupby(self._region_col)`. -/
def revenueGroups (ds : List Record) : List String :=
  sortKeys ((ds.map (·.package_service)).eraseDups)

/-- The revenue values of one `package_service` group, in row order. -/
def revenuesOf (ds : List Record) (k : String) : List ℚ :=
  (ds.filter (fun r => r.package_service == k)).map (·.total_rev)

/-- The distinct values of the `package_category` column in groupby
order: `groupby(self._category_col).size()`. -/
def categoryGroups (ds : List Record) : List String :=
  sortKeys ((ds.map (·.package_category)).eraseDups)

/-- The size of one `package_category` group. -/
def categoryCount (ds : List Record) (k : String) : ℕ :=
  (ds.filter (fun r => r.package_category == k)).length

/-- The fingerprint filter: activation year and month, `los_segment` and
`channel_new` must all equal the supplied params. A missing param (pandas
comparison of a column with `None`) matches no row. -/
def matchesFingerprint (p : Params) (r : Record) : Bool :=
  (p.year == some r.act_date.year) && (p.month == some r.act_date.month) &&
    (p.los == some r.los_segment) && (p.channel == some r.channel_new)

/-- `len(filtered_df)` for the fingerprint filter. -/
def fingerprintCount (ds : List Record) (p : Params) : ℕ :=
  (ds.filter (matchesFingerprint p)).length

/-- A dict comprehension `{k: f(i, k) for i, k in enumerate(keys)}` whose
body may raise: the first raised error aborts the whole comprehension,
as an uncaught Python exception would. `i` is the index of the group,
used to hand each group its own independent noise oracle. -/
def groupMapM (f : ℕ → String → Except MechError α) :
    ℕ → List String → Except MechError (List (String × α))
  | _, [] => .ok []
  | i, k :: ks =>
    match f i k with
    | .error e => .error e
    | .ok v =>
      match groupMapM f (i + 1) ks with
      | .error e => .error e
      | .ok rest => .ok ((k, v) :: rest)

/-- `DataServer._get_private_sum` (src/server.py lines 34-37): the empty
list short-circuits to exact `0`; otherwise pydp `BoundedSum` with the
startup bounds. -/
def DataServer.get_private_sum (lo hi : ℚ) (data : List ℚ) (eps : ℚ)
    (lap : ℚ → ℚ) : Except MechError ℚ :=
  if data = [] then .ok 0 else BoundedSum.quick_result eps lo hi lap data

/-- `DataServer._get_private_count` (src/server.py lines 39-41). -/
def DataServer.get_private_count (data : List ℚ) (eps : ℚ) (lap : ℚ → ℚ) :
    Except MechError ℤ :=
  Count.quick_result eps lap data

/-- `PrivacyEngine._get_private_sum` (src/app.py lines 32-34); textually
identical body to the socket server's. -/
def PrivacyEngine.get_private_sum (lo hi : ℚ) (data : List ℚ) (eps : ℚ)
    (lap : ℚ → ℚ) : Except MechError ℚ :=
  if data = [] then .ok 0 else BoundedSum.quick_result eps lo hi lap data

/-- `PrivacyEngine._get_private_count` (src/app.py lines 36-37). -/
def PrivacyEngine.get_private_count (data : List ℚ) (eps : ℚ)
    (lap : ℚ → ℚ) : Except MechError ℤ :=
  Count.quick_result eps lap data

/-- `DataServer.process_query` (src/server.py lines 43-91). The epsilon
comes from the request: `query.get("epsilon", 0.5)`. `lap i` is the
Laplace oracle for the `i`-th group (one independent draw per group). -/
def DataServer.process_query (st : ServerState) (q : Query)
    (lap : ℕ → ℚ → ℚ) : Except MechError QResult :=
  match st.rawData with
  | none => .ok (.error "Server data not loaded.")
  | some ds =>
    let use_dp := q.use_dp.getD false
    let epsilon := q.epsilon.getD (1 / 2)
    if q.type = some "revenue_by_region" then
      if use_dp then
        (groupMapM (fun i k =>
          DataServer.get_private_sum st.lowerBound st.upperBound
            (revenuesOf ds k) epsilon (lap i)) 0 (revenueGroups ds)).map
          .revDict
      else
        .ok (.revDict ((revenueGroups ds).map
          (fun k => (k, (revenuesOf ds k).sum))))
    else if q.type = some "count_by_category" then
      if use_dp then
        (groupMapM (fun i k =>
          DataServer.get_private_count
            (List.replicate (categoryCount ds k) 1) epsilon
            (lap i)) 0 (categoryGroups ds)).map .cntDict
      else
        .ok (.cntDict ((categoryGroups ds).map
          (fun k => (k, (categoryCount ds k : ℤ)))))
    else if q.type = some "count_by_fingerprint" then
      let p := q.params.getD Params.empty
      let count := fingerprintCount ds p
      if use_dp then
        (DataServer.get_private_count (List.replicate count 1) epsilon
          (lap 0)).map .cnt
      else .ok (.cnt count)
    else .ok (.error "Unsupported query type.")

/-- `SERVER_EPSILON_POLICY` (src/app.py lines 75-79): the Flask server's
fixed per-query-type privacy budget. -/
def SERVER_EPSILON_POLICY : List (String × ℚ) :=
  [("revenue_by_region", 4), ("count_by_category", 5 / 2),
   ("count_by_fingerprint", 1 / 5)]

/-- Epsilon resolution in `handle_query` (src/app.py line 94):
`SERVER_EPSILON_POLICY.get(query_type, 1.0)`; reads only the `type`
field, never the client's `epsilon`. -/
def appResolveEpsilon (q : Query) : ℚ :=
  match q.type with
  | some t => (SERVER_EPSILON_POLICY.lookup t).getD 1
  | none => 1

/-- `PrivacyEngine.get_revenue_by_region` (src/app.py lines 39-44). -/
def PrivacyEngine.get_revenue_by_region (lo hi : ℚ) (ds : List Record)
    (use_dp : Bool) (eps : ℚ) (lap : ℕ → ℚ → ℚ) :
    Except MechError QResult :=
  if use_dp then
    (groupMapM (fun i k =>
      PrivacyEngine.get_private_sum lo hi (revenuesOf ds k) eps
        (lap i)) 0 (revenueGroups ds)).map .revDict
  else
    .ok (.revDict ((revenueGroups ds).map
      (fun k => (k, (revenuesOf ds k).sum))))

/-- `PrivacyEngine.get_count_by_category` (src/app.py lines 46-51). -/
def PrivacyEngine.get_count_by_category (ds : List Record) (use_dp : Bool)
    (eps : ℚ) (lap : ℕ → ℚ → ℚ) : Except MechError QResult :=
  if use_dp then
    (groupMapM (fun i k =>
      PrivacyEngine.get_private_count
        (List.replicate (categoryCount ds k) 1) eps
        (lap i)) 0 (categoryGroups ds)).map .cntDict
  else
    .ok (.cntDict ((categoryGroups ds).map
      (fun k => (k, (categoryCount ds k : ℤ)))))

/-- `PrivacyEngine.get_count_by_fingerprint` (src/app.py lines 53-65). -/
def PrivacyEngine.get_count_by_fingerprint (ds : List Record)
    (use_dp : Bool) (eps : ℚ) (p : Params) (lap : ℕ → ℚ → ℚ) :
    Except MechError QResult :=
  let count := fingerprintCount ds p
  if use_dp then
    (PrivacyEngine.get_private_count (List.replicate count 1) eps
      (lap 0)).map .cnt
  else .ok (.cnt count)

/-- `handle_query` (src/app.py lines 82-107). Returns the response body
together with the HTTP status (200, 400 or 500). Epsilon is resolved
from `SERVER_EPSILON_POLICY`; the client's `epsilon` field is never
read. -/
def handle_query (st : ServerState) (q : Query) (lap : ℕ → ℚ → ℚ) :
    Except MechError (QResult × ℕ) :=
  match st.rawData with
  | none => .ok (.error "Server data not loaded.", 500)
  | some ds =>
    let use_dp := q.use_dp.getD false
    let params := q.params.getD Params.empty
    let epsilon := appResolveEpsilon q
    if q.type = some "revenue_by_region" then
      (PrivacyEngine.get_revenue_by_region st.lowerBound st.upperBound ds
        use_dp epsilon lap).map (fun r => (r, 200))
    else if q.type = some "count_by_category" then
      (PrivacyEngine.get_count_by_category ds use_dp epsilon lap).map
        (fun r => (r, 200))
    else if q.type = some "count_by_fingerprint" then
      (PrivacyEngine.get_count_by_fingerprint ds use_dp epsilon params
        lap).map (fun r => (r, 200))
    else .ok (.error "Unsupported query type.", 400)

/-! ### Concrete demonstration data for counterexamples and witnesses -/

/-- A demo record: an "IndiHome"/"2P" customer activated 2023-05. -/
def rec1 : Record := ⟨100, "IndiHome", "2P", ⟨2023, 5, 10⟩, "0-6", "Online"⟩

/-- A demo record: an "Orbit"/"3P" customer activated 2023-06. -/
def rec2 : Record := ⟨200, "Orbit", "3P", ⟨2023, 6, 11⟩, "6-12", "Store"⟩

/-- A two-record demo dataset. -/
def demoDS : List Record := [rec1, rec2]

/-- A loaded server over the demo dataset, bounds as `__init__` computes
them (min and max of the revenue column). -/
def demoState : ServerState := ⟨some demoDS, 100, 200⟩

/-- A deterministic stand-in for the Laplace oracle that returns the
scale it was asked for, so that the drawn value records which epsilon
reached the mechanism. -/
def lapScale : ℕ → ℚ → ℚ := fun _ s => s

/-- A Laplace oracle whose draw is always `-10`, to exhibit negative
noised counts. -/
def lapNeg : ℕ → ℚ → ℚ := fun _ _ => -10

/-- A DP fingerprint query matching exactly `rec1`, with the client
asking for `epsilon = 1`. -/
def fpQuery : Query :=
  ⟨some "count_by_fingerprint", some true, some 1,
   some ⟨some 2023, some 5, some "0-6", some "Online"⟩⟩

/-! ### Claim C1 -/

/-- Claim C1, counterexample. Two queries to the socket server that are
identical except for the client-supplied `epsilon` field produce
different results under the same noise oracle and the same loaded
dataset, so the epsilon the socket server resolves and passes to
`_get_private_count` does depend on the client's `epsilon`. -/
theorem c1_socket_forwards_client_epsilon :
    DataServer.process_query demoState fpQuery lapScale ≠
      DataServer.process_query demoState
        { fpQuery with epsilon := some (1 / 3) } lapScale := by
  have h1 : DataServer.process_query demoState fpQuery lapScale =
      .ok (.cnt 2) := by
    simp [DataServer.process_query, demoState, fpQuery, demoDS,
      fingerprintCount, matchesFingerprint, rec1, rec2, Params.empty,
      lapScale, DataServer.get_private_count, Count.quick_result,
      List.filter, roundHalfAway, ratFloor, Except.map]
    all_goals norm_num
    all_goals decide
  have h2 : DataServer.process_query demoState
      { fpQuery with epsilon := some (1 / 3) } lapScale = .ok (.cnt 4) := by
    simp [DataServer.process_query, demoState, fpQuery, demoDS,
      fingerprintCount, matchesFingerprint, rec1, rec2, Params.empty,
      lapScale, DataServer.get_private_count, Count.quick_result,
      List.filter, roundHalfAway, ratFloor, Except.map]
    all_goals norm_num
    all_goals decide
  rw [h1, h2]
  simp

/-- Claim C1, amended: the Flask server (`handle_query`) never forwards
the client's `epsilon`: its response is invariant under arbitrary changes
of the query's `epsilon` field, for every server state, query and noise
oracle. (The socket server does forward it; see the counterexample.) -/
theorem c1_flask_ignores_client_epsilon (st : ServerState) (q : Query)
    (e : Option ℚ) (lap : ℕ → ℚ → ℚ) :
    handle_query st { q with epsilon := e } lap = handle_query st q lap := by
  cases hr : st.rawData <;>
    simp [handle_query, appResolveEpsilon, hr]

/-! ### Claim C2 -/

/-- Claim C2: the code violates it. `_get_private_sum` on an empty value
list returns exactly `ok 0` in both servers, for every epsilon, bounds
and noise oracle — no noise is drawn, contradicting the spec's stated
edge-case policy that an empty group must still be noised. -/
theorem c2_empty_sum_unnoised (lo hi eps : ℚ) (lap : ℚ → ℚ) :
    DataServer.get_private_sum lo hi [] eps lap = .ok 0 ∧
    PrivacyEngine.get_private_sum lo hi [] eps lap = .ok 0 :=
  ⟨rfl, rfl⟩

/-! ### Claim C3 -/

/-- Claim C3, counterexample. A client query with `epsilon = -1` and
`use_dp = true` drives the socket server's count mechanism into its
`InvalidEpsilon` branch: the error branches are reachable from client
input there. -/
theorem c3_client_epsilon_reaches_mechanism :
    DataServer.process_query demoState { fpQuery with epsilon := some (-1) }
      lapScale = .error .invalidEpsilon := by
  simp [DataServer.process_query, demoState, fpQuery, demoDS,
    fingerprintCount, matchesFingerprint, rec1, rec2, Params.empty,
    lapScale, DataServer.get_private_count, Count.quick_result,
    List.filter, roundHalfAway, ratFloor, Except.map]

/-- Claim C3, amended: for the Flask server the epsilon that reaches the
mechanisms is always positive and depends on nothing in the request
except the `type` field (it is invariant under the `epsilon`, `use_dp`
and `params` fields). The socket server instead passes the
client-supplied epsilon through; see the counterexample. -/
theorem c3_flask_epsilon_positive_and_fixed :
    (∀ q : Query, 0 < appResolveEpsilon q) ∧
    (∀ (q : Query) (e : Option ℚ) (u : Option Bool) (p : Option Params),
      appResolveEpsilon { q with epsilon := e, use_dp := u, params := p } =
        appResolveEpsilon q) := by
  constructor
  · intro q
    unfold appResolveEpsilon
    cases q.type with
    | none => norm_num
    | some t =>
      simp only [SERVER_EPSILON_POLICY, List.lookup]
      cases h1 : t == "revenue_by_region" <;>
        cases h2 : t == "count_by_category" <;>
          cases h3 : t == "count_by_fingerprint" <;>
            simp
  · intro q e u p
    unfold appResolveEpsilon
    rfl

/-! ### Claim C4 -/

/-- Claim C4, counterexample. On the empty value sequence (with
`epsilon = 1`, bounds `[0, 10]` and a noise oracle drawing `5`) the
private sum operation does not return the clamped sum plus the Laplace
draw of scale `(upper - lower) / epsilon`: it short-circuits to exact
`0`. -/
theorem c4_empty_sum_not_algorithm :
    DataServer.get_private_sum 0 10 [] 1 (fun _ => 5) ≠
      .ok ((([] : List ℚ).map (clampTo 0 10)).sum +
        (fun _ : ℚ => (5 : ℚ)) ((10 - 0) / 1)) := by
  simp [DataServer.get_private_sum]

/-- Claim C4, amended: for every NON-empty sequence of values, epsilon
> 0 and bounds with lower < upper, both servers' private sum clamps each
value to `[lower, upper]`, sums, and adds one Laplace draw of scale
`(upper - lower) / epsilon`; the empty sequence instead returns exact,
un-noised `0`. -/
theorem c4_private_sum_nonempty (lo hi eps : ℚ) (values : List ℚ)
    (lap : ℚ → ℚ) (hne : values ≠ []) (heps : 0 < eps) (hb : lo < hi) :
    DataServer.get_private_sum lo hi values eps lap =
      .ok ((values.map (clampTo lo hi)).sum + lap ((hi - lo) / eps)) ∧
    PrivacyEngine.get_private_sum lo hi values eps lap =
      .ok ((values.map (clampTo lo hi)).sum + lap ((hi - lo) / eps)) := by
  unfold DataServer.get_private_sum PrivacyEngine.get_private_sum
    BoundedSum.quick_result
  rw [if_neg hne, if_neg (not_le.mpr heps), if_neg (not_le.mpr hb)]
  exact ⟨rfl, rfl⟩

/-- Claim C4, witness: the amended theorem applied to the concrete input
`values = [3, 20]`, bounds `[0, 10]`, `epsilon = 2`, oracle drawing the
scale: `clamp(3) + clamp(20) + (10 - 0) / 2 = 3 + 10 + 5 = 18`. -/
theorem c4_witness :
    DataServer.get_private_sum 0 10 [3, 20] 2 (fun s => s) = .ok 18 := by
  have h := (c4_private_sum_nonempty 0 10 2 [3, 20] (fun s => s)
    (by simp) (by norm_num) (by norm_num)).1
  rw [h]
  norm_num [clampTo]

/-! ### Claim C5 -/

/-- Claim C5: the private count operation returns
`round(n + Laplace(1/epsilon))` with round-half-away-from-zero for every
non-negative `n` and positive epsilon, and the result is not clamped
between the mechanism and the client: a fingerprint query whose noise
draw is `-10` on a group of true size 1 answers the negative scalar
`-9`. -/
theorem c5_private_count_rounds_and_unclamped :
    (∀ (n : ℕ) (eps : ℚ) (lap : ℚ → ℚ), 0 < eps →
      DataServer.get_private_count (List.replicate n 1) eps lap =
        .ok (roundHalfAway ((n : ℚ) + lap (1 / eps)))) ∧
    DataServer.process_query demoState fpQuery lapNeg = .ok (.cnt (-9)) := by
  constructor
  · intro n eps lap h
    unfold DataServer.get_private_count Count.quick_result
    rw [if_neg (not_le.mpr h), List.length_replicate]
  · simp [DataServer.process_query, demoState, fpQuery, demoDS,
      fingerprintCount, matchesFingerprint, rec1, rec2, Params.empty,
      lapNeg, DataServer.get_private_count, Count.quick_result,
      List.filter, roundHalfAway, ratFloor, Except.map]
    all_goals norm_num
    all_goals decide

/-- Claim C5, witness: the count formula applied to the concrete input
`n = 3`, `epsilon = 2`, oracle drawing `1`: `round(3 + 1) = 4`. -/
theorem c5_witness :
    DataServer.get_private_count (List.replicate 3 1) 2 (fun _ => 1) =
      .ok 4 := by
  have h := c5_private_count_rounds_and_unclamped.1 3 2 (fun _ => 1)
    (by norm_num)
  rw [h]
  norm_num [roundHalfAway, ratFloor]
  all_goals decide

/-! ### Claim C6 -/

/-- Claim C6: when the dataset is loaded and the query's `type` is none
of the three supported strings, both servers answer the
"Unsupported query type." error (the Flask server with HTTP 400), never
a numeric or default result, for every remaining field of the query. -/
theorem c6_unsupported_type (st : ServerState) (ds : List Record)
    (q : Query) (lap : ℕ → ℚ → ℚ) (hds : st.rawData = some ds)
    (h1 : q.type ≠ some "revenue_by_region")
    (h2 : q.type ≠ some "count_by_category")
    (h3 : q.type ≠ some "count_by_fingerprint") :
    DataServer.process_query st q lap =
      .ok (.error "Unsupported query type.") ∧
    handle_query st q lap = .ok (.error "Unsupported query type.", 400) := by
  constructor <;>
    simp [DataServer.process_query, handle_query, hds, h1, h2, h3]

/-- Claim C6, witness: the unsupported-type theorem at the concrete query
`{type: "nonexistent"}` over the demo dataset. -/
theorem c6_witness :
    DataServer.process_query demoState
        ⟨some "nonexistent", none, none, none⟩ lapScale =
      .ok (.error "Unsupported query type.") ∧
    handle_query demoState ⟨some "nonexistent", none, none, none⟩ lapScale =
      .ok (.error "Unsupported query type.", 400) :=
  c6_unsupported_type demoState demoDS _ lapScale rfl
    (by simp) (by simp) (by simp)

/-! ### Claim C7 -/

/-- Claim C7: with `rawData = none` (dataset failed to load) both servers
answer "Server data not loaded." (the Flask server with HTTP 500) for
every query, every bounds configuration and every noise oracle — the
result does not depend on the oracle, so no mechanism can contribute to
it. -/
theorem c7_unavailable_fails_fast (lo hi : ℚ) (q : Query)
    (lap : ℕ → ℚ → ℚ) :
    DataServer.process_query ⟨none, lo, hi⟩ q lap =
      .ok (.error "Server data not loaded.") ∧
    handle_query ⟨none, lo, hi⟩ q lap =
      .ok (.error "Server data not loaded.", 500) :=
  ⟨rfl, rfl⟩

/-! ### Claim C8 -/

/-- Claim C8: with `use_dp` false every query's answer is independent of
the noise oracle in both servers, so non-DP aggregation is deterministic
for a fixed dataset: two evaluations of the same query agree. -/
theorem c8_nondp_deterministic (st : ServerState) (q : Query)
    (lap lap' : ℕ → ℚ → ℚ) (h : q.use_dp.getD false = false) :
    DataServer.process_query st q lap = DataServer.process_query st q lap' ∧
    handle_query st q lap = handle_query st q lap' := by
  cases hr : st.rawData <;> constructor <;>
    simp [DataServer.process_query, handle_query, hr, h,
      PrivacyEngine.get_revenue_by_region,
      PrivacyEngine.get_count_by_category,
      PrivacyEngine.get_count_by_fingerprint]

/-- Claim C8, witness: the determinism theorem at a concrete non-DP
revenue query over the demo dataset with two different oracles. -/
theorem c8_witness :
    DataServer.process_query demoState
        ⟨some "revenue_by_region", some false, none, none⟩ lapScale =
      DataServer.process_query demoState
        ⟨some "revenue_by_region", some false, none, none⟩ lapNeg :=
  (c8_nondp_deterministic demoState
    ⟨some "revenue_by_region", some false, none, none⟩ lapScale lapNeg
    rfl).1

/-! ### Claim C9 -/

/-- Claim C9: a query with no `use_dp` field is answered exactly as the
same query with `use_dp = false`, independently of the noise oracle, in
both servers: privacy is opt-in per request, the default is the exact,
un-noised result. -/
theorem c9_use_dp_defaults_false (st : ServerState) (q : Query)
    (lap lap' : ℕ → ℚ → ℚ) (h : q.use_dp = none) :
    DataServer.process_query st q lap =
      DataServer.process_query st { q with use_dp := some false } lap' ∧
    handle_query st q lap =
      handle_query st { q with use_dp := some false } lap' := by
  cases hr : st.rawData <;> constructor <;>
    simp [DataServer.process_query, handle_query, hr, h, appResolveEpsilon,
      PrivacyEngine.get_revenue_by_region,
      PrivacyEngine.get_count_by_category,
      PrivacyEngine.get_count_by_fingerprint]

/-- Claim C9, witness: the defaulting theorem at a concrete category
query with no `use_dp` field, against two different oracles. -/
theorem c9_witness :
    DataServer.process_query demoState
        ⟨some "count_by_category", none, none, none⟩ lapScale =
      DataServer.process_query demoState
        ⟨some "count_by_category", some false, none, none⟩ lapNeg :=
  (c9_use_dp_defaults_false demoState
    ⟨some "count_by_category", none, none, none⟩ lapScale lapNeg rfl).1

/-! ### Claim C10 -/

/-- Claim C10: on non-DP queries the socket server and the Flask server
are behaviorally equivalent: for the same state and query (with `use_dp`
false or absent) the Flask response body equals the socket server's
response, whatever either oracle draws. -/
theorem c10_socket_flask_equiv_nondp (st : ServerState) (q : Query)
    (lap lap' : ℕ → ℚ → ℚ) (h : q.use_dp.getD false = false) :
    Except.map Prod.fst (handle_query st q lap') =
      DataServer.process_query st q lap := by
  cases hr : st.rawData with
  | none => simp [DataServer.process_query, handle_query, hr, Except.map]
  | some ds =>
    by_cases h1 : q.type = some "revenue_by_region" <;>
      by_cases h2 : q.type = some "count_by_category" <;>
        by_cases h3 : q.type = some "count_by_fingerprint" <;>
          simp [DataServer.process_query, handle_query, hr, h, Except.map,
            h1, h2, h3,
            PrivacyEngine.get_revenue_by_region,
            PrivacyEngine.get_count_by_category,
            PrivacyEngine.get_count_by_fingerprint]

/-- Claim C10, witness: the equivalence theorem at a concrete non-DP
fingerprint query over the demo dataset, with different oracles on the
two servers. -/
theorem c10_witness :
    Except.map Prod.fst (handle_query demoState
        ⟨some "count_by_fingerprint", some false, none, none⟩ lapNeg) =
      DataServer.process_query demoState
        ⟨some "count_by_fingerprint", some false, none, none⟩ lapScale :=
  c10_socket_flask_equiv_nondp demoState
    ⟨some "count_by_fingerprint", some false, none, none⟩ lapScale lapNeg
    rfl
